import Mathlib

/-!
Shallow embedding of the dairy-farm record validation core
(Django project: core, reproduction, production, health apps).

Conventions used throughout:
* Calendar dates (DateField values) are integers counting days from an
  arbitrary epoch; subtracting two dates yields the day difference that
  Python computes with (a - b).days.
* Datetimes (DateTimeField values, used for heat observation times) are
  integers at microsecond resolution, the resolution of Python datetime;
  timedelta_days n is the length of n days in that unit.
* The ambient current date (core.utils.todays_date, read pervasively by the
  validators) is passed explicitly as a todays_date argument; every claim
  is quantified over it.
* django.core.exceptions.ValidationError is represented by its stable error
  code only (an Option String, since one raise site passes no code); the
  human-readable messages are presentational and are omitted.
* Enumerated TextChoices values are the exact strings declared in the
  choices modules.
-/

/-- A Django ValidationError, reduced to its stable error code.
One raise site in PregnancyValidator.validate_pregnancy_status passes no
code, hence the Option. -/
structure ValidationError where
  code : Option String
deriving DecidableEq, Repr

/-- Result of a validator method: ok, or a raised ValidationError. -/
abbrev VResult := Except ValidationError Unit

/-- Sequencing of two validation steps: the second runs only when the first
raised nothing (Python executes statements in order and raising aborts). -/
def seqV (a b : VResult) : VResult :=
  match a with
  | .ok _ => b
  | .error e => .error e

/-- Length of n days at microsecond resolution (datetime.timedelta(days=n)). -/
def timedelta_days (n : Int) : Int := n * 86400000000

namespace PregnancyStatusChoices

def CONFIRMED : String := "Confirmed"

def UNCONFIRMED : String := "Unconfirmed"

def FAILED : String := "Failed"

def values : List String := [CONFIRMED, UNCONFIRMED, FAILED]

end PregnancyStatusChoices

namespace PregnancyOutcomeChoices

def LIVE : String := "Live"

def STILLBORN : String := "Stillborn"

def MISCARRIAGE : String := "Miscarriage"

def values : List String := [LIVE, STILLBORN, MISCARRIAGE]

end PregnancyOutcomeChoices

namespace CowAvailabilityChoices

def ALIVE : String := "Alive"

def SOLD : String := "Sold"

def DEAD : String := "Dead"

end CowAvailabilityChoices

namespace CowPregnancyChoices

def OPEN : String := "Open"

def PREGNANT : String := "Pregnant"

def CALVED : String := "Calved"

def UNAVAILABLE : String := "Unavailable"

end CowPregnancyChoices

namespace CowProductionStatusChoices

def OPEN : String := "Open"

def CULLED : String := "Culled"

def CALF : String := "Calf"

end CowProductionStatusChoices

namespace CowCategoryChoices

def CALF : String := "Calf"

def WEANER : String := "Weaner"

def HEIFER : String := "Heifer"

def BULL : String := "Bull"

def MILKING_COW : String := "Milking Cow"

def values : List String := [CALF, WEANER, HEIFER, BULL, MILKING_COW]

end CowCategoryChoices

namespace SexChoices

def MALE : String := "Male"

def FEMALE : String := "Female"

end SexChoices

/-- The Cow model (core/models.py), scalar fields.  The breed foreign key is
represented by the breed name; sire/dam are optional cow ids; text notes
fields carry no validation and dates follow the integer-day convention. -/
structure Cow where
  name : String
  breed : String
  date_of_birth : Int
  gender : String
  availability_status : String
  current_pregnancy_status : String
  category : String
  current_production_status : String
  is_bought : Bool
  sire : Option Nat
  dam : Option Nat
  date_introduced_in_farm : Int
  date_of_death : Option Int
deriving DecidableEq, Repr

/-- CowManager.calculate_age: age of the cow in days, (todays_date - date_of_birth).days. -/
def Cow.age (cow : Cow) (todays_date : Int) : Int :=
  todays_date - cow.date_of_birth

/-- The Pregnancy model (reproduction/models.py).  id is the primary key,
cow the foreign-key id of the owning cow; the free-text notes fields are
read by no validator and are omitted. -/
structure Pregnancy where
  id : Nat
  cow : Nat
  start_date : Int
  date_of_calving : Option Int
  pregnancy_status : String
  pregnancy_scan_date : Option Int
  pregnancy_failed_date : Option Int
  pregnancy_outcome : Option String
deriving DecidableEq, Repr

/-- Value of PregnancyManager.pregnancy_duration: a day count, or the string
"Ended" once both a calving date and an outcome are recorded. -/
inductive PregnancyDuration where
  | days (d : Int)
  | ended
deriving DecidableEq, Repr

/-- PregnancyManager.pregnancy_duration (reproduction/managers.py).  The
start_date model field is non-nullable, so the first branch of the Python
code reduces to the calving-and-outcome test. -/
def pregnancy_duration (p : Pregnancy) (todays_date : Int) : PregnancyDuration :=
  if p.date_of_calving.isSome ∧ p.pregnancy_outcome.isSome then
    .ended
  else
    .days (todays_date - p.start_date)

namespace PregnancyValidator

/-- PregnancyValidator.validate_age (reproduction/validators.py).  age is
cow.age; start_date is optional because the Python code guards against a
missing value before using it. -/
def validate_age (age : Int) (start_date : Option Int) (cow : Cow) : VResult :=
  if age < 365 then
    .error ⟨some ("age_below_threshold")⟩
  else
    match start_date with
    | none => .error ⟨some ("missing_start_date")⟩
    | some sd =>
      if sd - cow.date_of_birth < 0 then
        .error ⟨some ("invalid_start_date")⟩
      else if sd - cow.date_of_birth < 365 then
        .error ⟨some ("pregnancy_age_threshold_not_met")⟩
      else .ok ()

/-- PregnancyValidator.validate_cow_current_pregnancy_status. -/
def validate_cow_current_pregnancy_status (cow : Cow) : VResult :=
  if cow.current_pregnancy_status = CowPregnancyChoices.PREGNANT then
    .error ⟨some ("cow_already_pregnant")⟩
  else if cow.current_pregnancy_status = CowPregnancyChoices.CALVED then
    .error ⟨some ("cow_calved_recently")⟩
  else if cow.current_pregnancy_status = CowPregnancyChoices.UNAVAILABLE then
    .error ⟨some ("cow_not_ready")⟩
  else .ok ()

/-- PregnancyValidator.validate_cow_availability_status. -/
def validate_cow_availability_status (cow : Cow) : VResult :=
  if cow.availability_status = CowAvailabilityChoices.DEAD then
    .error ⟨some ("dead_cow")⟩
  else if cow.availability_status = CowAvailabilityChoices.SOLD then
    .error ⟨some ("sold_cow")⟩
  else .ok ()

/-- PregnancyValidator.validate_pregnancy_status.  The fourth raise site of
the Python code passes a message but no code, represented by code none. -/
def validate_pregnancy_status (pregnancy_status : String) (start_sate : Int)
    (pregnancy_failed_date : Option Int) (preg_duration : PregnancyDuration)
    (todays_date : Int) : VResult :=
  if pregnancy_status ∉ PregnancyStatusChoices.values then
    .error ⟨some ("invalid_pregnancy_status_choice")⟩
  else if pregnancy_status = PregnancyStatusChoices.FAILED ∧ pregnancy_failed_date = none then
    .error ⟨some ("missing_date_of_failure")⟩
  else if todays_date - start_sate < 30 ∧ pregnancy_status ≠ PregnancyStatusChoices.UNCONFIRMED then
    .error ⟨some ("too_early_to_confirm_status")⟩
  else
    match preg_duration with
    | .ended => .ok ()
    | .days d =>
      if 30 ≤ d ∧
          pregnancy_status ∉ [PregnancyStatusChoices.CONFIRMED, PregnancyStatusChoices.FAILED] then
        .error ⟨none⟩
      else .ok ()

/-- PregnancyValidator.validate_dates. -/
def validate_dates (start_date : Int) (date_of_calving : Option Int)
    (todays_date : Int) : VResult :=
  if todays_date < start_date then
    .error ⟨some ("invalid_start_date")⟩
  else
    match date_of_calving with
    | none => .ok ()
    | some calving =>
      if calving < start_date then
        .error ⟨some ("invalid_date_of_calving")⟩
      else if todays_date < calving then
        .error ⟨some ("invalid_date_of_calving")⟩
      else if ¬ (270 ≤ calving - start_date ∧ calving - start_date ≤ 295) then
        .error ⟨some ("invalid_calving_start_date_difference")⟩
      else .ok ()

/-- PregnancyValidator.validate_outcome.  A null outcome (Python falsy)
skips the outcome-specific checks; the final check fires on any calving
date whose outcome is not Live or Stillborn. -/
def validate_outcome (pregnancy_outcome : Option String) (pregnancy_status : String)
    (date_of_calving : Option Int) : VResult :=
  seqV
    (match pregnancy_outcome with
     | none => .ok ()
     | some oc =>
       if oc ∉ PregnancyOutcomeChoices.values then
         .error ⟨some ("invalid_outcome_choice")⟩
       else if oc ∈ [PregnancyOutcomeChoices.LIVE, PregnancyOutcomeChoices.STILLBORN] ∧
           pregnancy_status ≠ PregnancyStatusChoices.CONFIRMED then
         .error ⟨some ("invalid_outcome_status")⟩
       else if oc = PregnancyOutcomeChoices.LIVE ∧ date_of_calving = none then
         .error ⟨some ("missing_date_of_calving")⟩
       else if oc = PregnancyOutcomeChoices.MISCARRIAGE ∧
           pregnancy_status ≠ PregnancyStatusChoices.FAILED then
         .error ⟨some ("invalid_outcome_status")⟩
       else .ok ())
    (if date_of_calving.isSome ∧
        pregnancy_outcome ∉ [some PregnancyOutcomeChoices.LIVE, some PregnancyOutcomeChoices.STILLBORN] then
       .error ⟨some ("missing_outcome")⟩
     else .ok ())

end PregnancyValidator

/-- Pregnancy.clean (reproduction/models.py): the validator calls in source
order, each aborting the chain when it raises.  cow is the dereferenced
self.cow instance. -/
def Pregnancy_clean (cow : Cow) (p : Pregnancy) (todays_date : Int) : VResult :=
  seqV (PregnancyValidator.validate_age (cow.age todays_date) (some p.start_date) cow)
    (seqV (PregnancyValidator.validate_cow_current_pregnancy_status cow)
      (seqV (PregnancyValidator.validate_cow_availability_status cow)
        (seqV (PregnancyValidator.validate_dates p.start_date p.date_of_calving todays_date)
          (seqV (PregnancyValidator.validate_pregnancy_status p.pregnancy_status p.start_date
              p.pregnancy_failed_date (pregnancy_duration p todays_date) todays_date)
            (PregnancyValidator.validate_outcome p.pregnancy_outcome p.pregnancy_status
              p.date_of_calving)))))

namespace HeatValidator

/-- HeatValidator.validate_within_21_days_of_previous_heat
(reproduction/validators.py).  heat_records holds the observation times of
the committed heat records of the cow; the Django range lookup is inclusive
at both ends, so a record is matched exactly when it lies between
observation_time - 21 days and observation_time. -/
def validate_within_21_days_of_previous_heat (heat_records : List Int)
    (observation_time : Int) : VResult :=
  if heat_records.any (fun t =>
      decide (observation_time - timedelta_days 21 ≤ t ∧ t ≤ observation_time)) then
    .error ⟨some ("in_heat_within_21_days")⟩
  else .ok ()

end HeatValidator

namespace LactationValidator

/-- LactationValidator.validate_cow_origin (production/validators.py). -/
def validate_cow_origin (cow : Cow) : VResult :=
  if cow.is_bought = false then
    .error ⟨some ("manual_entry_only_on_bought_cows")⟩
  else .ok ()

/-- LactationValidator.validate_cow_category (production/validators.py). -/
def validate_cow_category (category : String) : VResult :=
  if category ∉ CowCategoryChoices.values then
    .error ⟨some ("invalid_cow_category")⟩
  else if category ≠ CowCategoryChoices.MILKING_COW then
    .error ⟨some ("only_bought_cows_with_calves_allowed")⟩
  else .ok ()

end LactationValidator

/-- The cow-level checks performed by LactationSerializer.create
(production/serializers.py lines 68-76), the entry point of every manually
created lactation record (the pregnancy post-save path calls
Lactation.objects.create directly and bypasses the serializer).  The two
calls inside Lactation.clean itself are commented out in the source; the
serializer runs them before creating the record. -/
def LactationSerializer_create_checks (cow : Cow) : VResult :=
  seqV (LactationValidator.validate_cow_origin cow)
    (LactationValidator.validate_cow_category cow.category)

namespace MilkValidator

/-- MilkValidator.validate_amount_in_kgs (production/validators.py).
Amounts are DecimalField values, represented as rationals. -/
def validate_amount_in_kgs (amount_in_kgs : Rat) : VResult :=
  if amount_in_kgs < 0 then
    .error ⟨some ("invalid_amount")⟩
  else if 35 < amount_in_kgs then
    .error ⟨some ("exceeds_maximum_amount")⟩
  else .ok ()

end MilkValidator

/-- A committed WeightRecord row (health/models.py): owning cow id and the
date the weight was taken. -/
structure WeightRecordRow where
  cow : Nat
  date_taken : Int
deriving DecidableEq, Repr

namespace WeightRecordValidator

/-- WeightRecordValidator.validate_weight (health/validators.py). -/
def validate_weight (weight_in_kgs : Rat) : VResult :=
  if weight_in_kgs < 10 then
    .error ⟨some ("invalid_weight")⟩
  else if 1500 < weight_in_kgs then
    .error ⟨some ("invalid_weight")⟩
  else .ok ()

/-- WeightRecordValidator.validate_cow_availability_status (health/validators.py). -/
def validate_cow_availability_status (cow : Cow) : VResult :=
  if cow.availability_status ≠ CowAvailabilityChoices.ALIVE then
    .error ⟨some ("invalid_availability_status")⟩
  else .ok ()

/-- WeightRecordValidator.validate_frequency_of_weight_records
(health/validators.py).  committed holds the already-saved weight records;
the record being cleaned is not among them, because WeightRecord.save runs
clean before the database insert.  The Python code raises only when the
filtered count exceeds one. -/
def validate_frequency_of_weight_records (date_taken : Int) (cow : Nat)
    (committed : List WeightRecordRow) : VResult :=
  if 1 < (committed.filter (fun r =>
      decide (r.cow = cow ∧ r.date_taken = date_taken))).length then
    .error ⟨some ("duplicate_weight_record")⟩
  else .ok ()

end WeightRecordValidator

/-- WeightRecord.clean (health/models.py): the three validator calls in
source order.  cow_obj is the dereferenced self.cow; cow_id its primary
key, used by the frequency filter. -/
def WeightRecord_clean (weight_in_kgs : Rat) (date_taken : Int) (cow_obj : Cow)
    (cow_id : Nat) (committed : List WeightRecordRow) : VResult :=
  seqV (WeightRecordValidator.validate_weight weight_in_kgs)
    (seqV (WeightRecordValidator.validate_cow_availability_status cow_obj)
      (WeightRecordValidator.validate_frequency_of_weight_records date_taken cow_id committed))

/-- The post-save handler set_cow_production_status_to_culled
(health/signals.py): when the cow is not already Culled, its production
status becomes Culled and its pregnancy status Unavailable; otherwise the
handler saves nothing. -/
def set_cow_production_status_to_culled (cow : Cow) : Cow :=
  if cow.current_production_status ≠ CowProductionStatusChoices.CULLED then
    { cow with
        current_production_status := CowProductionStatusChoices.CULLED,
        current_pregnancy_status := CowPregnancyChoices.UNAVAILABLE }
  else cow

/-- Outcome of a DRF viewset write action, as far as the claims need it: a
MethodNotAllowed exception is a distinct failure class from a
ValidationError-backed response. -/
inductive DrfResponse where
  | success
  | validationFailure (e : ValidationError)
  | methodNotAllowed (method : String)
deriving DecidableEq, Repr

def HTTP_PUT : String := "PUT"

def HTTP_PATCH : String := "PATCH"

/-- CullingRecordViewSet.update (health/views.py): raises MethodNotAllowed
for every PUT request, before any validation runs. -/
def CullingRecordViewSet_update : DrfResponse :=
  .methodNotAllowed HTTP_PUT

/-- CullingRecordViewSet.partial_update (health/views.py): raises
MethodNotAllowed for every PATCH request, before any validation runs. -/
def CullingRecordViewSet_patch : DrfResponse :=
  .methodNotAllowed HTTP_PATCH

/-- A Lactation row (production/models.py).  The model declares cow,
start_date, lactation_number (default 1), an optional one-to-one pregnancy
link and actual_end_date; it declares no field named end_date. -/
structure LactationRow where
  cow : Nat
  start_date : Int
  lactation_number : Nat
  pregnancy : Option Nat
  actual_end_date : Option Int
deriving DecidableEq, Repr

/-- Lactation.objects.filter(cow=...).latest() with Meta.get_latest_by =
"-start_date": Django latest() reverses the declared ordering, so the query
orders by start_date ascending and returns its first row — the lactation
with the smallest start_date (ties resolved by list order).  Returns none
exactly when Django raises Lactation.DoesNotExist. -/
def latest_lactation (ls : List LactationRow) : Option LactationRow :=
  ls.foldl (fun acc r =>
    match acc with
    | none => some r
    | some a => if r.start_date < a.start_date then some r else some a) none

/-- Modelled from the spec: CowManager.mark_a_recently_calved_cow is called
by reproduction/signals.py but its definition is not among the source files
(core/managers.py ends without it, as does core/utils.py with todays_date);
the spec states the side effect as: the cow pregnancy status flips to
Calved. -/
def mark_a_recently_calved_cow (cow : Cow) : Cow :=
  { cow with current_pregnancy_status := CowPregnancyChoices.CALVED }

/-- Ways the create_lactation handler can abort with a Python exception
instead of completing. -/
inductive SignalFailure where
  | attributeErrorEndDate
  | nullStartDate
deriving DecidableEq, Repr

/-- The post-save handler create_lactation (reproduction/signals.py).
Arguments: the saved pregnancy instance, the dereferenced instance.cow, and
the committed lactation rows.  Returns the updated cow and lactation table,
or the Python exception the handler raises.

Faithfulness notes, keyed to the source lines:
* line 14: the guard returns early iff the instance has no calving date and
  its outcome is neither Live nor Stillborn;
* line 23: .latest() on the filtered rows (see latest_lactation); an empty
  filter raises Lactation.DoesNotExist, caught on line 35;
* line 25: the handler reads previous_lactation.end_date, but the Lactation
  model defines actual_end_date and no attribute end_date, so this access
  raises AttributeError whenever a previous lactation exists;
* line 36: the except-branch creates one lactation with the calving date as
  start_date, linked to this pregnancy, lactation_number left at the model
  default 1; a null calving date would violate the non-null start_date
  column. -/
def create_lactation (ins : Pregnancy) (cow : Cow)
    (lactations : List LactationRow) : Except SignalFailure (Cow × List LactationRow) :=
  if ins.date_of_calving = none ∧
      ins.pregnancy_outcome ∉
        [some PregnancyOutcomeChoices.LIVE, some PregnancyOutcomeChoices.STILLBORN] then
    .ok (cow, lactations)
  else
    let cow2 := mark_a_recently_calved_cow cow
    match latest_lactation (lactations.filter (fun l => decide (l.cow = ins.cow))) with
    | some _previous =>
      .error .attributeErrorEndDate
    | none =>
      match ins.date_of_calving with
      | some d =>
        .ok (cow2, lactations ++ [⟨ins.cow, d, 1, some ins.id, none⟩])
      | none => .error .nullStartDate

/-- Breed name used by the sample records. -/
def CowBreedChoices.FRIESIAN : String := "Friesian"

def sample_cow_name : String := "Daisy"

/-- A living, open, female milking cow born on day 0, not bought. -/
def sampleCowOpen : Cow :=
  { name := sample_cow_name
    breed := CowBreedChoices.FRIESIAN
    date_of_birth := 0
    gender := SexChoices.FEMALE
    availability_status := CowAvailabilityChoices.ALIVE
    current_pregnancy_status := CowPregnancyChoices.OPEN
    category := CowCategoryChoices.MILKING_COW
    current_production_status := CowProductionStatusChoices.OPEN
    is_bought := false
    sire := none
    dam := none
    date_introduced_in_farm := 0
    date_of_death := none }

/-- A cow already culled, with the matching Unavailable pregnancy status. -/
def sampleCowCulled : Cow :=
  { sampleCowOpen with
      current_production_status := CowProductionStatusChoices.CULLED,
      current_pregnancy_status := CowPregnancyChoices.UNAVAILABLE }

/-- A cow whose production status is already Culled while its pregnancy
status is still Open. -/
def sampleCowCulledOpenPreg : Cow :=
  { sampleCowOpen with current_production_status := CowProductionStatusChoices.CULLED }

/-- A bought cow categorised as a heifer. -/
def sampleBoughtHeifer : Cow :=
  { sampleCowOpen with is_bought := true, category := CowCategoryChoices.HEIFER }

/-- A bought cow categorised as a milking cow. -/
def sampleBoughtMilkingCow : Cow :=
  { sampleCowOpen with is_bought := true }

/-- A confirmed pregnancy of cow 1 with a Live outcome and a calving date on
day 670 (gestation 280 days from day 390). -/
def samplePregnancyLive : Pregnancy :=
  { id := 7
    cow := 1
    start_date := 390
    date_of_calving := some 670
    pregnancy_status := PregnancyStatusChoices.CONFIRMED
    pregnancy_scan_date := none
    pregnancy_failed_date := none
    pregnancy_outcome := some PregnancyOutcomeChoices.LIVE }

/-- A confirmed, ongoing pregnancy of cow 1 started on day 400. -/
def samplePregnancyConfirmed : Pregnancy :=
  { id := 2
    cow := 1
    start_date := 400
    date_of_calving := none
    pregnancy_status := PregnancyStatusChoices.CONFIRMED
    pregnancy_scan_date := none
    pregnancy_failed_date := none
    pregnancy_outcome := none }

/-- A still-open lactation of cow 1 (no end date recorded). -/
def sampleOpenLactation : LactationRow :=
  { cow := 1
    start_date := 100
    lactation_number := 1
    pregnancy := none
    actual_end_date := none }

/-- A sequenced validation succeeds exactly when both steps do. -/
theorem seqV_eq_ok {a b : VResult} (h : seqV a b = .ok ()) : a = .ok () ∧ b = .ok () := by
  cases a with
  | ok u => exact ⟨rfl, h⟩
  | error e => simp [seqV] at h

/-- The culling handler leaves a cow already marked Culled untouched. -/
theorem set_culled_noop {cow : Cow}
    (h : cow.current_production_status = CowProductionStatusChoices.CULLED) :
    set_cow_production_status_to_culled cow = cow := by
  unfold set_cow_production_status_to_culled
  rw [if_neg (by simp [h])]

/-- The culling handler on a not-yet-culled cow: both status fields are set
and every other field is preserved. -/
theorem set_culled_updates {cow : Cow}
    (h : cow.current_production_status ≠ CowProductionStatusChoices.CULLED) :
    set_cow_production_status_to_culled cow =
      { cow with
          current_production_status := CowProductionStatusChoices.CULLED,
          current_pregnancy_status := CowPregnancyChoices.UNAVAILABLE } := by
  unfold set_cow_production_status_to_culled
  rw [if_pos h]

/-- Claim C1.  Evaluating the post-save create_lactation handler: for a cow
that already has an open lactation (no end date), the handler aborts with
the AttributeError raised by reading the non-existent Lactation field
end_date, so the prior lactation is not closed and no new lactation is
created — against the claim, which expects the prior lactation to end on
the calving date minus one day and a new lactation numbered one higher.
For a cow with no prior lactation the handler behaves as claimed: exactly
one new lactation is created, starting on the calving date (day 670) and
linked one-to-one to this pregnancy (id 7), with the default lactation
number 1. -/
theorem thm_C1 :
    (create_lactation samplePregnancyLive sampleCowOpen [sampleOpenLactation]
      = .error .attributeErrorEndDate)
    ∧ (create_lactation samplePregnancyLive sampleCowOpen []
      = .ok (mark_a_recently_calved_cow sampleCowOpen,
             [{ cow := 1, start_date := 670, lactation_number := 1,
                pregnancy := some 7, actual_end_date := none }])) :=
  ⟨rfl, rfl⟩

/-- Claim C4.  Evaluating the weight-record validation at the claim input:
with exactly one committed weight record for cow 1 on day 5, the full
WeightRecord.clean of a second record for cow 1 on day 5 succeeds — the
frequency check raises only when the committed count exceeds one — against
the claim, which expects a duplicate_weight_record rejection.  The second
conjunct shows the code only rejects once two records are already
committed. -/
theorem thm_C4 :
    (WeightRecord_clean 300 5 sampleCowOpen 1 [{ cow := 1, date_taken := 5 }] = .ok ())
    ∧ (WeightRecordValidator.validate_frequency_of_weight_records 5 1
        [{ cow := 1, date_taken := 5 }, { cow := 1, date_taken := 5 }]
      = .error ⟨some ("duplicate_weight_record")⟩) :=
  ⟨rfl, rfl⟩

/-- Distinct error codes give distinct validation results. -/
theorem verror_ne {e1 e2 : ValidationError} (h : e1 ≠ e2) :
    (Except.error e1 : VResult) ≠ .error e2 :=
  fun hh => h (by injection hh)

/-- A successful validation result is never an error. -/
theorem vok_ne_error {e : ValidationError} : (Except.ok () : VResult) ≠ .error e :=
  fun h => Except.noConfusion h

/-- Claim C8.  validate_amount_in_kgs raises invalid_amount exactly on
strictly negative amounts, raises exceeds_maximum_amount exactly on amounts
strictly above 35, accepts every amount in the closed interval from 0 to
35 kg (including 35 and the concrete inputs 35 and 40 of the claim), and
the two rejection codes are distinct. -/
theorem thm_C8 :
    (∀ a : Rat, MilkValidator.validate_amount_in_kgs a = .error ⟨some ("invalid_amount")⟩ ↔ a < 0)
    ∧ (∀ a : Rat,
        MilkValidator.validate_amount_in_kgs a = .error ⟨some ("exceeds_maximum_amount")⟩ ↔ 35 < a)
    ∧ (∀ a : Rat, 0 ≤ a → a ≤ 35 → MilkValidator.validate_amount_in_kgs a = .ok ())
    ∧ (MilkValidator.validate_amount_in_kgs 40 = .error ⟨some ("exceeds_maximum_amount")⟩)
    ∧ (MilkValidator.validate_amount_in_kgs 35 = .ok ())
    ∧ (ValidationError.mk (some ("invalid_amount"))
        ≠ ValidationError.mk (some ("exceeds_maximum_amount"))) := by
  refine ⟨?_, ?_, ?_, rfl, rfl, by decide⟩
  · intro a
    unfold MilkValidator.validate_amount_in_kgs
    split_ifs with h1 h2
    · exact iff_of_true rfl h1
    · exact iff_of_false (verror_ne (by decide)) h1
    · exact iff_of_false not_false h1
  · intro a
    unfold MilkValidator.validate_amount_in_kgs
    split_ifs with h1 h2
    · exact iff_of_false (verror_ne (by decide))
        (fun h => absurd (h.trans h1) (by norm_num))
    · exact iff_of_true rfl h2
    · exact iff_of_false not_false h2
  · intro a h0 h35
    unfold MilkValidator.validate_amount_in_kgs
    rw [if_neg (not_lt.mpr h0), if_neg (not_lt.mpr h35)]

/-- Witness for C8: the acceptance part of the theorem applied at the
concrete amount 17 kg. -/
theorem thm_C8_witness : MilkValidator.validate_amount_in_kgs 17 = .ok () :=
  thm_C8.2.2.1 17 (by norm_num) (by norm_num)

/-- Claim C10.  The culling post-save handler is idempotent: a cow whose
production status is already Culled is returned unchanged, and applying the
handler twice equals applying it once, for every cow. -/
theorem thm_C10 :
    (∀ cow : Cow, cow.current_production_status = CowProductionStatusChoices.CULLED →
      set_cow_production_status_to_culled cow = cow)
    ∧ (∀ cow : Cow,
      set_cow_production_status_to_culled (set_cow_production_status_to_culled cow)
        = set_cow_production_status_to_culled cow) := by
  constructor
  · intro cow h
    exact set_culled_noop h
  · intro cow
    by_cases h : cow.current_production_status = CowProductionStatusChoices.CULLED
    · rw [set_culled_noop h, set_culled_noop h]
    · rw [set_culled_updates h]
      exact set_culled_noop rfl

/-- Witness for C10: the no-op part applied to a concrete culled cow, and
the idempotence part applied to a concrete open cow. -/
theorem thm_C10_witness :
    (set_cow_production_status_to_culled sampleCowCulled = sampleCowCulled)
    ∧ (set_cow_production_status_to_culled (set_cow_production_status_to_culled sampleCowOpen)
        = set_cow_production_status_to_culled sampleCowOpen) :=
  ⟨thm_C10.1 sampleCowCulled rfl, thm_C10.2 sampleCowOpen⟩

/-- Claim C6, amended.  For every cow not already Culled, the culling
post-save handler sets the production status to Culled and the pregnancy
status to Unavailable and leaves every other field unchanged; a cow whose
production status is already Culled is left entirely unchanged (so its
pregnancy status is not forced to Unavailable).  PUT and PATCH of a
culling record always fail with MethodNotAllowed, a failure class distinct
from every validation error. -/
theorem thm_C6 :
    (∀ cow : Cow, cow.current_production_status ≠ CowProductionStatusChoices.CULLED →
      (set_cow_production_status_to_culled cow).current_production_status
          = CowProductionStatusChoices.CULLED
      ∧ (set_cow_production_status_to_culled cow).current_pregnancy_status
          = CowPregnancyChoices.UNAVAILABLE
      ∧ (set_cow_production_status_to_culled cow).name = cow.name
      ∧ (set_cow_production_status_to_culled cow).breed = cow.breed
      ∧ (set_cow_production_status_to_culled cow).date_of_birth = cow.date_of_birth
      ∧ (set_cow_production_status_to_culled cow).gender = cow.gender
      ∧ (set_cow_production_status_to_culled cow).availability_status = cow.availability_status
      ∧ (set_cow_production_status_to_culled cow).category = cow.category
      ∧ (set_cow_production_status_to_culled cow).is_bought = cow.is_bought
      ∧ (set_cow_production_status_to_culled cow).sire = cow.sire
      ∧ (set_cow_production_status_to_culled cow).dam = cow.dam
      ∧ (set_cow_production_status_to_culled cow).date_introduced_in_farm
          = cow.date_introduced_in_farm
      ∧ (set_cow_production_status_to_culled cow).date_of_death = cow.date_of_death)
    ∧ (∀ cow : Cow, cow.current_production_status = CowProductionStatusChoices.CULLED →
        set_cow_production_status_to_culled cow = cow)
    ∧ (CullingRecordViewSet_update = .methodNotAllowed HTTP_PUT)
    ∧ (CullingRecordViewSet_patch = .methodNotAllowed HTTP_PATCH)
    ∧ (∀ (m : String) (e : ValidationError),
        DrfResponse.methodNotAllowed m ≠ DrfResponse.validationFailure e) := by
  refine ⟨?_, ?_, rfl, rfl, ?_⟩
  · intro cow h
    rw [set_culled_updates h]
    exact ⟨rfl, rfl, rfl, rfl, rfl, rfl, rfl, rfl, rfl, rfl, rfl, rfl, rfl⟩
  · intro cow h
    exact set_culled_noop h
  · intro m e h
    exact DrfResponse.noConfusion h

/-- Witness for C6: the update part applied to the concrete open cow, and
the no-op part applied to the concrete already-culled cow. -/
theorem thm_C6_witness :
    ((set_cow_production_status_to_culled sampleCowOpen).current_production_status
        = CowProductionStatusChoices.CULLED
      ∧ (set_cow_production_status_to_culled sampleCowOpen).current_pregnancy_status
        = CowPregnancyChoices.UNAVAILABLE)
    ∧ set_cow_production_status_to_culled sampleCowCulled = sampleCowCulled :=
  ⟨⟨(thm_C6.1 sampleCowOpen (by decide)).1, (thm_C6.1 sampleCowOpen (by decide)).2.1⟩,
   thm_C6.2.1 sampleCowCulled rfl⟩

/-- Counterexample for C6 as stated: a cow whose production status is
already Culled while its pregnancy status is Open is left untouched by the
handler, so saving a culling record for it does not give it the
Unavailable pregnancy status the claim promises for every cow. -/
theorem cex_C6 :
    sampleCowCulledOpenPreg.current_production_status = CowProductionStatusChoices.CULLED
    ∧ (set_cow_production_status_to_culled sampleCowCulledOpenPreg).current_pregnancy_status
        = CowPregnancyChoices.OPEN
    ∧ (set_cow_production_status_to_culled sampleCowCulledOpenPreg).current_pregnancy_status
        ≠ CowPregnancyChoices.UNAVAILABLE :=
  ⟨rfl, rfl, by decide⟩

/-- Claim C7.  Every manually created lactation record passes through
LactationSerializer.create, whose cow-level checks reject any cow that is
not bought with manual_entry_only_on_bought_cows, reject any bought cow
whose category is a declared category other than Milking Cow with
only_bought_cows_with_calves_allowed, and let a bought milking cow
through. -/
theorem thm_C7 :
    (∀ cow : Cow, cow.is_bought = false →
      LactationSerializer_create_checks cow
        = .error ⟨some ("manual_entry_only_on_bought_cows")⟩)
    ∧ (∀ cow : Cow, cow.is_bought = true →
        cow.category ∈ CowCategoryChoices.values →
        cow.category ≠ CowCategoryChoices.MILKING_COW →
        LactationSerializer_create_checks cow
          = .error ⟨some ("only_bought_cows_with_calves_allowed")⟩)
    ∧ (∀ cow : Cow, cow.is_bought = true →
        cow.category = CowCategoryChoices.MILKING_COW →
        LactationSerializer_create_checks cow = .ok ()) := by
  refine ⟨?_, ?_, ?_⟩
  · intro cow h
    unfold LactationSerializer_create_checks LactationValidator.validate_cow_origin
    rw [if_pos h]
    rfl
  · intro cow hb hmem hne
    unfold LactationSerializer_create_checks LactationValidator.validate_cow_origin
    rw [if_neg (by simp [hb])]
    unfold seqV LactationValidator.validate_cow_category
    rw [if_neg (by simp [hmem]), if_pos hne]
  · intro cow hb hcat
    unfold LactationSerializer_create_checks LactationValidator.validate_cow_origin
    rw [if_neg (by simp [hb])]
    unfold seqV LactationValidator.validate_cow_category
    rw [if_neg (by simp [hcat, CowCategoryChoices.values]), if_neg (by simp [hcat])]

/-- Witness for C7: the three parts applied to the concrete non-bought cow,
the concrete bought heifer and the concrete bought milking cow. -/
theorem thm_C7_witness :
    (LactationSerializer_create_checks sampleCowOpen
      = .error ⟨some ("manual_entry_only_on_bought_cows")⟩)
    ∧ (LactationSerializer_create_checks sampleBoughtHeifer
      = .error ⟨some ("only_bought_cows_with_calves_allowed")⟩)
    ∧ (LactationSerializer_create_checks sampleBoughtMilkingCow = .ok ()) :=
  ⟨thm_C7.1 sampleCowOpen rfl,
   thm_C7.2.1 sampleBoughtHeifer rfl (by decide) (by decide),
   thm_C7.2.2 sampleBoughtMilkingCow rfl rfl⟩

/-- If validate_pregnancy_status succeeds while the duration is a day count
of at least 30, the status is among Confirmed and Failed. -/
theorem validate_pregnancy_status_ok_of_long {s : String} {start : Int}
    {fd : Option Int} {dur : PregnancyDuration} {today d : Int}
    (h : PregnancyValidator.validate_pregnancy_status s start fd dur today = .ok ())
    (hdur : dur = .days d) (hd : 30 ≤ d) :
    s = PregnancyStatusChoices.CONFIRMED ∨ s = PregnancyStatusChoices.FAILED := by
  subst hdur
  simp only [PregnancyValidator.validate_pregnancy_status] at h
  split_ifs at h with h1 h2 h3 h4
  have h5 : ¬ (s ∉ [PregnancyStatusChoices.CONFIRMED, PregnancyStatusChoices.FAILED]) :=
    fun hn => h4 ⟨hd, hn⟩
  simpa using not_not.mp h5

/-- Claim C2.  Part one: whenever the whole Pregnancy.clean chain succeeds
and the pregnancy duration is a day count of at least 30, the pregnancy
status is Confirmed or Failed, never Unconfirmed.  Part two: a Failed
status with no pregnancy_failed_date is always rejected by
validate_pregnancy_status with code missing_date_of_failure. -/
theorem thm_C2 :
    (∀ (cow : Cow) (p : Pregnancy) (today d : Int),
      Pregnancy_clean cow p today = .ok () →
      pregnancy_duration p today = .days d → 30 ≤ d →
      p.pregnancy_status = PregnancyStatusChoices.CONFIRMED
        ∨ p.pregnancy_status = PregnancyStatusChoices.FAILED)
    ∧ (∀ (start : Int) (dur : PregnancyDuration) (today : Int),
      PregnancyValidator.validate_pregnancy_status PregnancyStatusChoices.FAILED
          start none dur today
        = .error ⟨some ("missing_date_of_failure")⟩) := by
  constructor
  · intro cow p today d hok hdur hd
    unfold Pregnancy_clean at hok
    obtain ⟨-, hok⟩ := seqV_eq_ok hok
    obtain ⟨-, hok⟩ := seqV_eq_ok hok
    obtain ⟨-, hok⟩ := seqV_eq_ok hok
    obtain ⟨-, hok⟩ := seqV_eq_ok hok
    obtain ⟨hvps, -⟩ := seqV_eq_ok hok
    exact validate_pregnancy_status_ok_of_long hvps hdur hd
  · intro start dur today
    rfl

/-- Witness for C2: part one applied to the concrete clean-accepted
confirmed pregnancy of duration 400 days, part two at concrete inputs. -/
theorem thm_C2_witness :
    (samplePregnancyConfirmed.pregnancy_status = PregnancyStatusChoices.CONFIRMED
      ∨ samplePregnancyConfirmed.pregnancy_status = PregnancyStatusChoices.FAILED)
    ∧ PregnancyValidator.validate_pregnancy_status PregnancyStatusChoices.FAILED 0 none
        (.days 50) 100 = .error ⟨some ("missing_date_of_failure")⟩ :=
  ⟨thm_C2.1 sampleCowOpen samplePregnancyConfirmed 800 400 rfl rfl (by decide),
   thm_C2.2 0 (.days 50) 100⟩

/-- Claim C9, amended.  For a pregnancy started fewer than 30 days before
today, validate_pregnancy_status rejects every status other than
Unconfirmed: with code too_early_to_confirm_status for Confirmed, and for
Failed when a failure date is given; a Failed status without a failure
date is rejected earlier with missing_date_of_failure, and a status
outside the declared choices with invalid_pregnancy_status_choice — in all
cases the record is rejected, so a pregnancy cannot be marked Confirmed or
Failed within 30 days of its start. -/
theorem thm_C9 :
    (∀ (start : Int) (fd : Option Int) (dur : PregnancyDuration) (today : Int),
      today - start < 30 →
      PregnancyValidator.validate_pregnancy_status PregnancyStatusChoices.CONFIRMED
          start fd dur today
        = .error ⟨some ("too_early_to_confirm_status")⟩)
    ∧ (∀ (start f : Int) (dur : PregnancyDuration) (today : Int),
      today - start < 30 →
      PregnancyValidator.validate_pregnancy_status PregnancyStatusChoices.FAILED
          start (some f) dur today
        = .error ⟨some ("too_early_to_confirm_status")⟩)
    ∧ (∀ (start : Int) (dur : PregnancyDuration) (today : Int),
      PregnancyValidator.validate_pregnancy_status PregnancyStatusChoices.FAILED
          start none dur today
        = .error ⟨some ("missing_date_of_failure")⟩)
    ∧ (∀ (s : String) (start : Int) (fd : Option Int) (dur : PregnancyDuration) (today : Int),
      today - start < 30 → s ≠ PregnancyStatusChoices.UNCONFIRMED →
      ∃ e : ValidationError,
        PregnancyValidator.validate_pregnancy_status s start fd dur today = .error e) := by
  refine ⟨?_, ?_, ?_, ?_⟩
  · intro start fd dur today h
    unfold PregnancyValidator.validate_pregnancy_status
    rw [if_neg (by decide), if_neg (by simp [PregnancyStatusChoices.CONFIRMED,
      PregnancyStatusChoices.FAILED]), if_pos ⟨h, by decide⟩]
  · intro start f dur today h
    unfold PregnancyValidator.validate_pregnancy_status
    rw [if_neg (by decide), if_neg (by simp), if_pos ⟨h, by decide⟩]
  · intro start dur today
    rfl
  · intro s start fd dur today hlt hne
    unfold PregnancyValidator.validate_pregnancy_status
    split_ifs with h1 h2 h3
    · exact ⟨_, rfl⟩
    · exact ⟨_, rfl⟩
    · exact absurd ⟨hlt, hne⟩ h3
    · exact ⟨_, rfl⟩

/-- Witness for C9: the Confirmed part, the Failed-with-date part and the
always-rejected part at concrete inputs 10 days into a pregnancy. -/
theorem thm_C9_witness :
    (PregnancyValidator.validate_pregnancy_status PregnancyStatusChoices.CONFIRMED 0 none
        (.days 10) 10 = .error ⟨some ("too_early_to_confirm_status")⟩)
    ∧ (PregnancyValidator.validate_pregnancy_status PregnancyStatusChoices.FAILED 0 (some 5)
        (.days 10) 10 = .error ⟨some ("too_early_to_confirm_status")⟩)
    ∧ (∃ e : ValidationError,
        PregnancyValidator.validate_pregnancy_status PregnancyStatusChoices.FAILED 0 none
          (.days 10) 10 = .error e) :=
  ⟨thm_C9.1 0 none (.days 10) 10 (by decide),
   thm_C9.2.1 0 5 (.days 10) 10 (by decide),
   thm_C9.2.2.2 PregnancyStatusChoices.FAILED 0 none (.days 10) 10 (by decide) (by decide)⟩

/-- Counterexample for C9 as stated: a Failed pregnancy 10 days old with no
failure date is rejected, but with code missing_date_of_failure rather
than the claimed too_early_to_confirm_status. -/
theorem cex_C9 :
    PregnancyValidator.validate_pregnancy_status PregnancyStatusChoices.FAILED 0 none
        (.days 10) 10 = .error ⟨some ("missing_date_of_failure")⟩
    ∧ ValidationError.mk (some ("missing_date_of_failure"))
        ≠ ⟨some ("too_early_to_confirm_status")⟩ :=
  ⟨rfl, by decide⟩

/-- Claim C3, amended.  validate_outcome: a Live or Stillborn outcome with a
status other than Confirmed is rejected with invalid_outcome_status; a
Live outcome with status Confirmed and no calving date is rejected with
missing_date_of_calving; a Miscarriage outcome with a status other than
Failed is rejected with invalid_outcome_status; and every non-null calving
date whose outcome is not Live or Stillborn is rejected — with code
missing_outcome when no earlier outcome check fires (null outcome, or
Miscarriage with status Failed), illustrated by the last two conjuncts. -/
theorem thm_C3 :
    (∀ (oc : String) (st : String) (cal : Option Int),
      oc ∈ [PregnancyOutcomeChoices.LIVE, PregnancyOutcomeChoices.STILLBORN] →
      st ≠ PregnancyStatusChoices.CONFIRMED →
      PregnancyValidator.validate_outcome (some oc) st cal
        = .error ⟨some ("invalid_outcome_status")⟩)
    ∧ (PregnancyValidator.validate_outcome (some PregnancyOutcomeChoices.LIVE)
        PregnancyStatusChoices.CONFIRMED none = .error ⟨some ("missing_date_of_calving")⟩)
    ∧ (∀ (st : String) (cal : Option Int), st ≠ PregnancyStatusChoices.FAILED →
      PregnancyValidator.validate_outcome (some PregnancyOutcomeChoices.MISCARRIAGE) st cal
        = .error ⟨some ("invalid_outcome_status")⟩)
    ∧ (∀ (oc : Option String) (st : String) (d : Int),
      oc ∉ [some PregnancyOutcomeChoices.LIVE, some PregnancyOutcomeChoices.STILLBORN] →
      ∃ e : ValidationError,
        PregnancyValidator.validate_outcome oc st (some d) = .error e)
    ∧ (∀ (st : String) (d : Int),
      PregnancyValidator.validate_outcome none st (some d)
        = .error ⟨some ("missing_outcome")⟩)
    ∧ (∀ (d : Int),
      PregnancyValidator.validate_outcome (some PregnancyOutcomeChoices.MISCARRIAGE)
        PregnancyStatusChoices.FAILED (some d) = .error ⟨some ("missing_outcome")⟩) := by
  refine ⟨?_, rfl, ?_, ?_, ?_, ?_⟩
  · intro oc st cal hoc hst
    have hoc2 : oc = PregnancyOutcomeChoices.LIVE ∨ oc = PregnancyOutcomeChoices.STILLBORN := by
      simpa using hoc
    rcases hoc2 with rfl | rfl
    · simp only [PregnancyValidator.validate_outcome]
      rw [if_neg (show ¬ (PregnancyOutcomeChoices.LIVE ∉ PregnancyOutcomeChoices.values) by decide),
        if_pos (show PregnancyOutcomeChoices.LIVE
            ∈ [PregnancyOutcomeChoices.LIVE, PregnancyOutcomeChoices.STILLBORN]
          ∧ st ≠ PregnancyStatusChoices.CONFIRMED from ⟨by decide, hst⟩)]
      rfl
    · simp only [PregnancyValidator.validate_outcome]
      rw [if_neg (show ¬ (PregnancyOutcomeChoices.STILLBORN ∉ PregnancyOutcomeChoices.values)
          by decide),
        if_pos (show PregnancyOutcomeChoices.STILLBORN
            ∈ [PregnancyOutcomeChoices.LIVE, PregnancyOutcomeChoices.STILLBORN]
          ∧ st ≠ PregnancyStatusChoices.CONFIRMED from ⟨by decide, hst⟩)]
      rfl
  · intro st cal hst
    simp only [PregnancyValidator.validate_outcome]
    rw [if_neg (show ¬ (PregnancyOutcomeChoices.MISCARRIAGE ∉ PregnancyOutcomeChoices.values)
        by decide),
      if_neg (show ¬ (PregnancyOutcomeChoices.MISCARRIAGE
            ∈ [PregnancyOutcomeChoices.LIVE, PregnancyOutcomeChoices.STILLBORN]
          ∧ st ≠ PregnancyStatusChoices.CONFIRMED) from fun hq => absurd hq.1 (by decide)),
      if_neg (show ¬ (PregnancyOutcomeChoices.MISCARRIAGE = PregnancyOutcomeChoices.LIVE
          ∧ cal = none) from fun hq => absurd hq.1 (by decide)),
      if_pos (show True ∧ st ≠ PregnancyStatusChoices.FAILED from ⟨trivial, hst⟩)]
    rfl
  · intro oc st d hoc
    cases oc with
    | none => exact ⟨_, rfl⟩
    | some x =>
      have hx : x ≠ PregnancyOutcomeChoices.LIVE ∧ x ≠ PregnancyOutcomeChoices.STILLBORN := by
        simpa using hoc
      by_cases hv : x ∈ PregnancyOutcomeChoices.values
      · have hm : x = PregnancyOutcomeChoices.MISCARRIAGE := by
          have hv2 : x = PregnancyOutcomeChoices.LIVE ∨ x = PregnancyOutcomeChoices.STILLBORN
              ∨ x = PregnancyOutcomeChoices.MISCARRIAGE := by
            simpa [PregnancyOutcomeChoices.values] using hv
          rcases hv2 with rfl | rfl | rfl
          · exact absurd rfl hx.1
          · exact absurd rfl hx.2
          · rfl
        subst hm
        by_cases hst : st = PregnancyStatusChoices.FAILED
        · refine ⟨⟨some ("missing_outcome")⟩, ?_⟩
          simp only [PregnancyValidator.validate_outcome]
          rw [if_neg (show ¬ (PregnancyOutcomeChoices.MISCARRIAGE
                ∉ PregnancyOutcomeChoices.values) by decide),
            if_neg (show ¬ (PregnancyOutcomeChoices.MISCARRIAGE
                  ∈ [PregnancyOutcomeChoices.LIVE, PregnancyOutcomeChoices.STILLBORN]
                ∧ st ≠ PregnancyStatusChoices.CONFIRMED) from fun hq => absurd hq.1 (by decide)),
            if_neg (show ¬ (PregnancyOutcomeChoices.MISCARRIAGE = PregnancyOutcomeChoices.LIVE
                ∧ (some d : Option Int) = none) from fun hq => absurd hq.1 (by decide)),
            if_neg (show ¬ (True ∧ st ≠ PregnancyStatusChoices.FAILED) from
              fun hq => hq.2 hst),
            if_pos (show ((some d : Option Int)).isSome = true
                ∧ (some PregnancyOutcomeChoices.MISCARRIAGE : Option String)
                  ∉ [some PregnancyOutcomeChoices.LIVE, some PregnancyOutcomeChoices.STILLBORN]
              from ⟨rfl, by decide⟩)]
          rfl
        · refine ⟨⟨some ("invalid_outcome_status")⟩, ?_⟩
          simp only [PregnancyValidator.validate_outcome]
          rw [if_neg (show ¬ (PregnancyOutcomeChoices.MISCARRIAGE
                ∉ PregnancyOutcomeChoices.values) by decide),
            if_neg (show ¬ (PregnancyOutcomeChoices.MISCARRIAGE
                  ∈ [PregnancyOutcomeChoices.LIVE, PregnancyOutcomeChoices.STILLBORN]
                ∧ st ≠ PregnancyStatusChoices.CONFIRMED) from fun hq => absurd hq.1 (by decide)),
            if_neg (show ¬ (PregnancyOutcomeChoices.MISCARRIAGE = PregnancyOutcomeChoices.LIVE
                ∧ (some d : Option Int) = none) from fun hq => absurd hq.1 (by decide)),
            if_pos (show True ∧ st ≠ PregnancyStatusChoices.FAILED from ⟨trivial, hst⟩)]
          rfl
      · refine ⟨⟨some ("invalid_outcome_choice")⟩, ?_⟩
        simp only [PregnancyValidator.validate_outcome]
        rw [if_pos hv]
        rfl
  · intro st d
    rfl
  · intro d
    rfl

/-- Witness for C3: the hypothesised parts of the theorem applied at
concrete inputs. -/
theorem thm_C3_witness :
    (PregnancyValidator.validate_outcome (some PregnancyOutcomeChoices.LIVE)
      PregnancyStatusChoices.UNCONFIRMED none = .error ⟨some ("invalid_outcome_status")⟩)
    ∧ (PregnancyValidator.validate_outcome (some PregnancyOutcomeChoices.MISCARRIAGE)
      PregnancyStatusChoices.UNCONFIRMED (some 280)
        = .error ⟨some ("invalid_outcome_status")⟩)
    ∧ (∃ e : ValidationError,
      PregnancyValidator.validate_outcome none PregnancyStatusChoices.CONFIRMED (some 280)
        = .error e) :=
  ⟨thm_C3.1 PregnancyOutcomeChoices.LIVE PregnancyStatusChoices.UNCONFIRMED none
      (by decide) (by decide),
   thm_C3.2.2.1 PregnancyStatusChoices.UNCONFIRMED (some 280) (by decide),
   thm_C3.2.2.2.1 none PregnancyStatusChoices.CONFIRMED 280 (by decide)⟩

/-- Counterexample for C3 as stated: a Miscarriage outcome with status
Confirmed and a calving date on day 280 is rejected, but with code
invalid_outcome_status — not the claimed missing_outcome. -/
theorem cex_C3 :
    PregnancyValidator.validate_outcome (some PregnancyOutcomeChoices.MISCARRIAGE)
        PregnancyStatusChoices.CONFIRMED (some 280)
      = .error ⟨some ("invalid_outcome_status")⟩
    ∧ ValidationError.mk (some ("invalid_outcome_status")) ≠ ⟨some ("missing_outcome")⟩ :=
  ⟨rfl, by decide⟩

/-- Claim C5, amended.  The 21-day heat check rejects a new observation
with in_heat_within_21_days exactly when some committed heat record lies
in the inclusive window from 21 days before the observation time up to the
observation time itself; records later than the observation time are
outside the window (the check is one-sided, not bidirectional).  In
particular a second heat 5 days after a prior one is rejected and one 22
days after it is accepted. -/
theorem thm_C5 :
    (∀ (heat_records : List Int) (observation_time : Int),
      HeatValidator.validate_within_21_days_of_previous_heat heat_records observation_time
          = .error ⟨some ("in_heat_within_21_days")⟩
        ↔ ∃ t, t ∈ heat_records
            ∧ observation_time - timedelta_days 21 ≤ t ∧ t ≤ observation_time)
    ∧ (HeatValidator.validate_within_21_days_of_previous_heat [0] (timedelta_days 5)
        = .error ⟨some ("in_heat_within_21_days")⟩)
    ∧ (HeatValidator.validate_within_21_days_of_previous_heat [0] (timedelta_days 22)
        = .ok ()) := by
  refine ⟨?_, rfl, rfl⟩
  intro heat_records observation_time
  unfold HeatValidator.validate_within_21_days_of_previous_heat
  split_ifs with h
  · simp only [List.any_eq_true, decide_eq_true_eq] at h
    obtain ⟨t, ht, hcond⟩ := h
    exact iff_of_true rfl ⟨t, ht, hcond⟩
  · simp only [List.any_eq_true, decide_eq_true_eq] at h
    push_neg at h
    constructor
    · intro hq
      exact hq.elim
    · intro hq
      obtain ⟨t, ht, h1, h2⟩ := hq
      exact absurd h2 (not_le.mpr (h t ht h1))

/-- Witness for C5: the window characterisation applied at a concrete
record list and observation time. -/
theorem thm_C5_witness :
    HeatValidator.validate_within_21_days_of_previous_heat [0] (timedelta_days 5)
      = .error ⟨some ("in_heat_within_21_days")⟩ :=
  (thm_C5.1 [0] (timedelta_days 5)).mpr ⟨0, by decide, by decide, by decide⟩

/-- Counterexample for C5 as stated: a committed heat record 5 days after
the new observation time lies within 21 days of it on either side, yet the
validator accepts the observation, because the coded window only looks
backwards. -/
theorem cex_C5 :
    HeatValidator.validate_within_21_days_of_previous_heat [timedelta_days 5] 0 = .ok ()
    ∧ - timedelta_days 21 ≤ timedelta_days 5 - 0
    ∧ timedelta_days 5 - 0 ≤ timedelta_days 21 :=
  ⟨rfl, by decide, by decide⟩
